import Mathlib

/-!
# Verification of the pine-perf-api audit handler

Shallow embedding of the two request-handler variants of this repository
(`src/run.js` and `src/api/run.js`).  Both handlers proxy one upstream
page-speed API call and transform its JSON payload into a simplified
`AuditSummary`.  JavaScript numbers that carry audit values are modelled as
rationals (`ℚ`); absent fields of the optional-chained payload accesses are
modelled as `Option`; the platform `URL` parser (`new URL(s).host`, which can
throw) is abstracted as a pre-computed `Option String` host per network item
and as a `parseHost` oracle for the target url.
-/

namespace PinePerf

/-- Letter grade attached to an issue (`'A'` … `'F'` string literals in the
source). -/
inductive Grade
  | A | B | C | D | F
deriving DecidableEq

/-- One element of the `issues` array:
`addIssue = (key, label, grade, tip) => issues.push({ key, label, grade, tip })`.
In `src/api/run.js` every `addIssue` call passes three arguments, so `tip` is
`undefined` (`none` here); in `src/run.js` every call passes a tip string. -/
structure Issue where
  key : String
  label : String
  grade : Grade
  tip : Option String
deriving DecidableEq

/-- One entry of `audits['network-requests'].details.items`.  The source only
reads `new URL(it.url).host`; `host` is that parse's result, `none` when the
`URL` constructor throws (the loop's `catch {}` swallows it). -/
structure NetworkItem where
  host : Option String
deriving DecidableEq

/-- The parts of the upstream JSON payload (`data.lighthouseResult`) that the
transform reads, flattened along the optional chains of the source.  Each
field is `none` exactly when the corresponding optional-chained access yields
`undefined`/`null`. -/
structure Payload where
  /-- `lr.categories.performance?.score` -/
  perfScore : Option ℚ := none
  /-- `audits['largest-contentful-paint']?.numericValue` -/
  lcpValue : Option ℚ := none
  /-- `audits['cumulative-layout-shift']?.numericValue` -/
  clsValue : Option ℚ := none
  /-- `audits['experimental-interaction-to-next-paint']?.numericValue` -/
  inpValue : Option ℚ := none
  /-- `audits['max-potential-fid']?.numericValue` -/
  maxFidValue : Option ℚ := none
  /-- `audits['network-requests']?.details?.items` -/
  networkItems : Option (List NetworkItem) := none
  /-- `audits['total-byte-weight']?.numericValue` -/
  byteWeight : Option ℚ := none
  /-- `audits['speed-index']?.numericValue` -/
  speedIndexValue : Option ℚ := none
  /-- `audits['interactive']?.numericValue` -/
  interactiveValue : Option ℚ := none
  /-- `audits['uses-long-cache-ttl']?.score` -/
  cacheScore : Option ℚ := none
  /-- `audits['uses-text-compression']?.score` -/
  compressionScore : Option ℚ := none
deriving DecidableEq

/-- JavaScript truthiness of a possibly-absent number: `undefined`, `null`
and `0` are falsy, any other (finite) number is truthy. -/
def truthyNum : Option ℚ → Bool
  | none => false
  | some v => v != 0

/-- `Math.round`: nearest integer, ties toward `+∞`. -/
def jsRound (x : ℚ) : ℤ := ⌊x + 1 / 2⌋

/-- `const score = Math.round((cats.performance?.score ?? 0) * 100);` -/
def scoreOf (p : Payload) : ℤ := jsRound ((p.perfScore.getD 0) * 100)

/-- `const lcp = audits['largest-contentful-paint']?.numericValue ?
audits['largest-contentful-paint'].numericValue / 1000 : null;`
(ternary on truthiness, so a present value `0` also yields `null`). -/
def lcpOf (p : Payload) : Option ℚ :=
  if truthyNum p.lcpValue then some (p.lcpValue.getD 0 / 1000) else none

/-- `const cls = audits['cumulative-layout-shift']?.numericValue ?? null;` -/
def clsOf (p : Payload) : Option ℚ := p.clsValue

/-- `let inp = audits['experimental-interaction-to-next-paint']?.numericValue;
if (inp == null) inp = audits['max-potential-fid']?.numericValue ?? null;` -/
def inpOf (p : Payload) : Option ℚ :=
  match p.inpValue with
  | some v => some v
  | none => p.maxFidValue

/-- `const reqs = audits['network-requests']?.details?.items?.length ?? null;` -/
def reqsOf (p : Payload) : Option ℕ := p.networkItems.map List.length

/-- `const pageSizeMB = bytes ? (bytes / (1024 * 1024)) : null;` where
`bytes = audits['total-byte-weight']?.numericValue ?? null`. -/
def pageSizeMBOf (p : Payload) : Option ℚ :=
  if truthyNum p.byteWeight then some (p.byteWeight.getD 0 / (1024 * 1024)) else none

/-- `const loadTimeS = audits['speed-index']?.numericValue ? … / 1000 :
audits['interactive']?.numericValue ? … / 1000 : null;` -/
def loadTimeSOf (p : Payload) : Option ℚ :=
  if truthyNum p.speedIndexValue then some (p.speedIndexValue.getD 0 / 1000)
  else if truthyNum p.interactiveValue then some (p.interactiveValue.getD 0 / 1000)
  else none

/-- The host-counting loop shared by both variants:
```
const seen = new Set();
for (const it of items) {
  try {
    const h = new URL(it.url).host;
    if (!seen.has(h)) { seen.add(h); if (h !== originHost) externalHosts++; }
  } catch {}
}
```
`seen` is the accumulator list, `n` the running `externalHosts` counter. -/
def hostLoop (originHost : String) : List NetworkItem → List String → ℕ → ℕ
  | [], _, n => n
  | it :: rest, seen, n =>
    match it.host with
    | none => hostLoop originHost rest seen n
    | some h =>
      if h ∈ seen then hostLoop originHost rest seen n
      else hostLoop originHost rest (h :: seen) (if h = originHost then n else n + 1)

/-- `externalHosts` after the loop, starting from
`const items = audits['network-requests']?.details?.items ?? [];`. -/
def externalHostsOf (p : Payload) (originHost : String) : ℕ :=
  hostLoop originHost (p.networkItems.getD []) [] 0

/-- Modelled from the spec: the number of distinct external hosts — "count of
distinct external hosts referenced in network-request items (hosts differing
from the target URL's own host, deduplicated by host string, URL-parse
failures on individual items silently skipped)".  Used only to compare the
imperative `hostLoop` against the spec's declarative description. -/
def specExternalHostCount (items : List NetworkItem) (originHost : String) : ℕ :=
  ((items.filterMap NetworkItem.host).toFinset.filter (fun h => h ≠ originHost)).card

/-! ## Issue construction, `src/api/run.js` variant

Every rule appends exactly one issue; the `addIssue` calls pass no tip. -/

/-- `src/api/run.js`:
```
if (reqs != null && reqs > 90) addIssue('http_requests', …, 'F');
else if (reqs != null && reqs > 60) addIssue(…, 'D');
else if (reqs != null && reqs > 40) addIssue(…, 'C');
else addIssue(…, 'B');
```
When `reqs` is `null` all three guards fail and the `else` emits grade B. -/
def apiHttpIssue (reqs : Option ℕ) : Issue :=
  match reqs with
  | some n =>
    if n > 90 then ⟨"http_requests", "Make fewer HTTP requests", .F, none⟩
    else if n > 60 then ⟨"http_requests", "Make fewer HTTP requests", .D, none⟩
    else if n > 40 then ⟨"http_requests", "Make fewer HTTP requests", .C, none⟩
    else ⟨"http_requests", "Make fewer HTTP requests", .B, none⟩
  | none => ⟨"http_requests", "Make fewer HTTP requests", .B, none⟩

/-- `src/api/run.js`:
```
if (cacheScore == null) addIssue('expires_headers', …, 'C');
else if (cacheScore >= 0.9) addIssue(…, 'A');
else if (cacheScore >= 0.7) addIssue(…, 'B');
else if (cacheScore >= 0.4) addIssue(…, 'C');
else addIssue(…, 'D');
``` -/
def apiExpiresIssue (s : Option ℚ) : Issue :=
  match s with
  | none => ⟨"expires_headers", "Add Expires headers", .C, none⟩
  | some v =>
    if v ≥ 0.9 then ⟨"expires_headers", "Add Expires headers", .A, none⟩
    else if v ≥ 0.7 then ⟨"expires_headers", "Add Expires headers", .B, none⟩
    else if v ≥ 0.4 then ⟨"expires_headers", "Add Expires headers", .C, none⟩
    else ⟨"expires_headers", "Add Expires headers", .D, none⟩

/-- `src/api/run.js`: same ladder on `audits['uses-text-compression']?.score`. -/
def apiGzipIssue (s : Option ℚ) : Issue :=
  match s with
  | none => ⟨"gzip", "Compress components with gzip/brotli", .C, none⟩
  | some v =>
    if v ≥ 0.9 then ⟨"gzip", "Compress components with gzip/brotli", .A, none⟩
    else if v ≥ 0.7 then ⟨"gzip", "Compress components with gzip/brotli", .B, none⟩
    else if v ≥ 0.4 then ⟨"gzip", "Compress components with gzip/brotli", .C, none⟩
    else ⟨"gzip", "Compress components with gzip/brotli", .D, none⟩

/-- `src/api/run.js`:
```
if (externalHosts > 6) addIssue('dns', …, 'D');
else if (externalHosts > 4) addIssue(…, 'C');
else if (externalHosts > 2) addIssue(…, 'B');
else addIssue(…, 'A');
``` -/
def apiDnsIssue (n : ℕ) : Issue :=
  if n > 6 then ⟨"dns", "Reduce DNS lookups", .D, none⟩
  else if n > 4 then ⟨"dns", "Reduce DNS lookups", .C, none⟩
  else if n > 2 then ⟨"dns", "Reduce DNS lookups", .B, none⟩
  else ⟨"dns", "Reduce DNS lookups", .A, none⟩

/-- The `issues` array built by `src/api/run.js`, in `addIssue` call order. -/
def apiIssuesOf (p : Payload) (originHost : String) : List Issue :=
  [apiHttpIssue (reqsOf p),
   apiExpiresIssue p.cacheScore,
   apiGzipIssue p.compressionScore,
   apiDnsIssue (externalHostsOf p originHost),
   ⟨"cookies", "Use cookie-free domains for static assets", .B, none⟩,
   ⟨"empty_src", "Avoid empty src or href", .A, none⟩]

/-! ## Issue construction, `src/run.js` variant

Rules without a final `else` emit nothing in the passing range; every emitted
issue carries a tip string. -/

/-- `src/run.js` lines 68–70: F/D/C tiers only, nothing otherwise. -/
def runHttpIssue (reqs : Option ℕ) : Option Issue :=
  match reqs with
  | some n =>
    if n > 90 then some ⟨"http_requests", "Make fewer HTTP requests", .F,
      some "Concatenate or defer non-critical scripts; lazy-load below-the-fold assets."⟩
    else if n > 60 then some ⟨"http_requests", "Make fewer HTTP requests", .D,
      some "Combine CSS/JS where possible and remove unused libraries."⟩
    else if n > 40 then some ⟨"http_requests", "Make fewer HTTP requests", .C,
      some "Audit plugins and third-party tags."⟩
    else none
  | none => none

/-- `src/run.js` lines 73–76: the guards carry explicit double bounds
(`cacheScore < 0.9 && cacheScore >= 0.7` etc.); a score `≥ 0.9` matches no
guard and emits nothing. -/
def runExpiresIssue (s : Option ℚ) : Option Issue :=
  match s with
  | none => some ⟨"expires_headers", "Add Expires headers", .C,
      some "Serve static assets with far-future cache and versioned filenames."⟩
  | some v =>
    if v < 0.9 ∧ v ≥ 0.7 then some ⟨"expires_headers", "Add Expires headers", .B,
      some "Increase cache TTL on images, fonts and compiled assets."⟩
    else if v < 0.7 ∧ v ≥ 0.4 then some ⟨"expires_headers", "Add Expires headers", .C,
      some "Set Cache-Control/ETag on static assets."⟩
    else if v < 0.4 then some ⟨"expires_headers", "Add Expires headers", .D,
      some "Enable long-term caching via CDN or server rules."⟩
    else none

/-- `src/run.js` lines 79–82: same shape on the text-compression score. -/
def runGzipIssue (s : Option ℚ) : Option Issue :=
  match s with
  | none => some ⟨"gzip", "Compress components with gzip/brotli", .C,
      some "Turn on gzip/brotli at hosting/CDN level."⟩
  | some v =>
    if v < 0.9 ∧ v ≥ 0.7 then some ⟨"gzip", "Compress components with gzip/brotli", .B,
      some "Ensure brotli is enabled for text assets."⟩
    else if v < 0.7 ∧ v ≥ 0.4 then some ⟨"gzip", "Compress components with gzip/brotli", .C,
      some "Compress HTML/CSS/JS; avoid uncompressed bundles."⟩
    else if v < 0.4 then some ⟨"gzip", "Compress components with gzip/brotli", .D,
      some "Enable compression at origin/CDN and re-deploy."⟩
    else none

/-- `src/run.js` lines 95–97: D/C/B tiers only, nothing when `≤ 2`. -/
def runDnsIssue (n : ℕ) : Option Issue :=
  if n > 6 then some ⟨"dns", "Reduce DNS lookups", .D,
    some "Consolidate third-party tags and use fewer external hosts."⟩
  else if n > 4 then some ⟨"dns", "Reduce DNS lookups", .C,
    some "Self-host fonts/critical assets; defer non-critical tags."⟩
  else if n > 2 then some ⟨"dns", "Reduce DNS lookups", .B,
    some "Prefer CDN subdomains you already use."⟩
  else none

/-- The `issues` array built by `src/run.js`, in `addIssue` call order. -/
def runIssuesOf (p : Payload) (originHost : String) : List Issue :=
  (runHttpIssue (reqsOf p)).toList ++
  (runExpiresIssue p.cacheScore).toList ++
  (runGzipIssue p.compressionScore).toList ++
  (runDnsIssue (externalHostsOf p originHost)).toList ++
  [⟨"cookies", "Use cookie-free domains for static assets", .B,
    some "Serve images/static assets from a cookieless subdomain or CDN."⟩,
   ⟨"empty_src", "Avoid empty src or href", .A,
    some "Scan templates for empty attributes that trigger extra requests."⟩]

/-! ## The handler -/

/-- The response summary object (`res.status(200).json({ score, lcp, cls, inp,
requests: reqs, pageSizeMB, loadTimeS, issues })`). -/
structure AuditSummary where
  score : ℤ
  lcp : Option ℚ
  cls : Option ℚ
  inp : Option ℚ
  requests : Option ℕ
  pageSizeMB : Option ℚ
  loadTimeS : Option ℚ
  issues : List Issue
deriving DecidableEq

/-- The pure transform of steps after `const data = await r.json();`,
parametric in the issue-building variant. -/
def transform (issuesOf : Payload → String → List Issue)
    (p : Payload) (originHost : String) : AuditSummary :=
  ⟨scoreOf p, lcpOf p, clsOf p, inpOf p, reqsOf p, pageSizeMBOf p, loadTimeSOf p,
   issuesOf p originHost⟩

/-- `req.body` once parsed: possibly carries a `url` string field. -/
structure ReqBody where
  url : Option String
deriving DecidableEq

/-- The inbound request as far as the handler reads it: `req.method` and
`req.body` (which may be absent). -/
structure Request where
  method : String
  body : Option ReqBody
deriving DecidableEq

/-- The completed upstream `fetch` result: `r.status`, the text body
(`await r.text()`, read on the error path), and the JSON body as read on the
success path (`none` when `r.json()` rejects, which the `catch` turns into a
500). -/
structure UpstreamResponse where
  status : ℕ
  bodyText : String
  payload : Option Payload
deriving DecidableEq

/-- The response bodies the handler can produce.  `serverError` is the
`catch`-all `{ error: 'Server error', detail: e?.message }` body, whose
`detail` (an exception message) is not modelled further. -/
inductive RespBody
  | empty
  | err (error : String) (detail : Option String)
  | serverError
  | summary (s : AuditSummary)
deriving DecidableEq

/-- The HTTP response: `res.status(n)` plus the body written. -/
structure Response where
  status : ℕ
  body : RespBody
deriving DecidableEq

/-- `r.ok` of the Fetch API: status in the range 200–299. -/
def fetchOk (s : ℕ) : Bool := 200 ≤ s && s < 300

/-- `const { url } = req.body || {};` — the `url` field of the body, with a
falsy body replaced by the empty object. -/
def bodyUrl (req : Request) : Option String := (req.body.getD ⟨none⟩).url

/-- Both handler functions, parametric in the issue-building variant (the only
difference between `src/run.js` and `src/api/run.js`).  `parseHost` abstracts
`new URL(s).host` for the target url (`none` = the constructor throws, which
the `catch` turns into a 500); `up` is the completed upstream fetch.  The CORS
header writes have no effect on status or body and are not modelled. -/
def handler (issuesOf : Payload → String → List Issue)
    (parseHost : String → Option String)
    (req : Request) (up : UpstreamResponse) : Response :=
  if req.method = "OPTIONS" then ⟨200, .empty⟩
  else if req.method ≠ "POST" then ⟨405, .err "Use POST \x7b url \x7d" none⟩
  else
    match bodyUrl req with
    | none => ⟨400, .err "Missing url" none⟩
    | some u =>
      if u = "" then ⟨400, .err "Missing url" none⟩
      else if !fetchOk up.status then ⟨up.status, .err "PSI error" (some up.bodyText)⟩
      else
        match up.payload with
        | none => ⟨500, .serverError⟩
        | some p =>
          match parseHost u with
          | none => ⟨500, .serverError⟩
          | some originHost => ⟨200, .summary (transform issuesOf p originHost)⟩

/-- Grade of the first issue with key `k`, if any (the issue lists never
repeat a key, so this is the grade of the rule `k`). -/
def issueGrade (issues : List Issue) (k : String) : Option Grade :=
  (issues.find? (fun i => i.key == k)).map Issue.grade

/-- Test payload: a network-requests audit with 45 items whose urls all parse
to the host `www.site.com` (the audited page's own host in the examples). -/
def sameHost45 : Payload :=
  { networkItems := some (List.replicate 45 ⟨some "www.site.com"⟩) }

/-! ## Helper lemmas: issue keys and tips -/

theorem apiHttpIssue_key (r : Option ℕ) : (apiHttpIssue r).key = "http_requests" := by
  cases r with
  | none => rfl
  | some n => simp only [apiHttpIssue]; split_ifs <;> rfl

theorem apiExpiresIssue_key (s : Option ℚ) : (apiExpiresIssue s).key = "expires_headers" := by
  cases s with
  | none => rfl
  | some v => simp only [apiExpiresIssue]; split_ifs <;> rfl

theorem apiGzipIssue_key (s : Option ℚ) : (apiGzipIssue s).key = "gzip" := by
  cases s with
  | none => rfl
  | some v => simp only [apiGzipIssue]; split_ifs <;> rfl

theorem apiDnsIssue_key (n : ℕ) : (apiDnsIssue n).key = "dns" := by
  simp only [apiDnsIssue]; split_ifs <;> rfl

theorem runHttpIssue_spec {r : Option ℕ} {i : Issue} (h : runHttpIssue r = some i) :
    i.key = "http_requests" ∧ i.tip ≠ none := by
  cases r with
  | none => simp [runHttpIssue] at h
  | some n =>
    simp only [runHttpIssue] at h
    split_ifs at h <;>
      first
      | exact Option.noConfusion h
      | (injection h with h; cases h; simp)

theorem runExpiresIssue_spec {s : Option ℚ} {i : Issue} (h : runExpiresIssue s = some i) :
    i.key = "expires_headers" ∧ i.tip ≠ none := by
  cases s with
  | none =>
    simp only [runExpiresIssue] at h
    injection h with h; cases h; simp
  | some v =>
    simp only [runExpiresIssue] at h
    split_ifs at h <;>
      first
      | exact Option.noConfusion h
      | (injection h with h; cases h; simp)

theorem runGzipIssue_spec {s : Option ℚ} {i : Issue} (h : runGzipIssue s = some i) :
    i.key = "gzip" ∧ i.tip ≠ none := by
  cases s with
  | none =>
    simp only [runGzipIssue] at h
    injection h with h; cases h; simp
  | some v =>
    simp only [runGzipIssue] at h
    split_ifs at h <;>
      first
      | exact Option.noConfusion h
      | (injection h with h; cases h; simp)

theorem runDnsIssue_spec {n : ℕ} {i : Issue} (h : runDnsIssue n = some i) :
    i.key = "dns" ∧ i.tip ≠ none := by
  simp only [runDnsIssue] at h
  split_ifs at h <;>
    first
    | exact Option.noConfusion h
    | (injection h with h; cases h; simp)

/-! ## Helper lemmas: locating an issue by key -/

theorem find?_optSkip {o : Option Issue} {l : List Issue} {pred : Issue → Bool}
    (h : ∀ i, o = some i → pred i = false) :
    (o.toList ++ l).find? pred = l.find? pred := by
  cases o with
  | none => rfl
  | some i => simp [List.find?_cons, h i rfl]

theorem api_find_http (p : Payload) (hst : String) :
    (apiIssuesOf p hst).find? (fun i => i.key == "http_requests") =
      some (apiHttpIssue (reqsOf p)) := by
  simp [apiIssuesOf, List.find?_cons, apiHttpIssue_key]

theorem api_find_expires (p : Payload) (hst : String) :
    (apiIssuesOf p hst).find? (fun i => i.key == "expires_headers") =
      some (apiExpiresIssue p.cacheScore) := by
  simp [apiIssuesOf, List.find?_cons, apiHttpIssue_key, apiExpiresIssue_key]

theorem api_find_gzip (p : Payload) (hst : String) :
    (apiIssuesOf p hst).find? (fun i => i.key == "gzip") =
      some (apiGzipIssue p.compressionScore) := by
  simp [apiIssuesOf, List.find?_cons, apiHttpIssue_key, apiExpiresIssue_key, apiGzipIssue_key]

theorem api_find_dns (p : Payload) (hst : String) :
    (apiIssuesOf p hst).find? (fun i => i.key == "dns") =
      some (apiDnsIssue (externalHostsOf p hst)) := by
  simp [apiIssuesOf, List.find?_cons, apiHttpIssue_key, apiExpiresIssue_key, apiGzipIssue_key,
    apiDnsIssue_key]

theorem api_find_cookies (p : Payload) (hst : String) :
    (apiIssuesOf p hst).find? (fun i => i.key == "cookies") =
      some ⟨"cookies", "Use cookie-free domains for static assets", .B, none⟩ := by
  simp [apiIssuesOf, List.find?_cons, apiHttpIssue_key, apiExpiresIssue_key, apiGzipIssue_key,
    apiDnsIssue_key]

theorem api_find_empty_src (p : Payload) (hst : String) :
    (apiIssuesOf p hst).find? (fun i => i.key == "empty_src") =
      some ⟨"empty_src", "Avoid empty src or href", .A, none⟩ := by
  simp [apiIssuesOf, List.find?_cons, apiHttpIssue_key, apiExpiresIssue_key, apiGzipIssue_key,
    apiDnsIssue_key]

theorem run_find_http (p : Payload) (hst : String) :
    (runIssuesOf p hst).find? (fun i => i.key == "http_requests") = runHttpIssue (reqsOf p) := by
  have hE : ∀ i, runExpiresIssue p.cacheScore = some i →
      (i.key == "http_requests") = false := by
    intro i hi; rw [(runExpiresIssue_spec hi).1]; decide
  have hG : ∀ i, runGzipIssue p.compressionScore = some i →
      (i.key == "http_requests") = false := by
    intro i hi; rw [(runGzipIssue_spec hi).1]; decide
  have hD : ∀ i, runDnsIssue (externalHostsOf p hst) = some i →
      (i.key == "http_requests") = false := by
    intro i hi; rw [(runDnsIssue_spec hi).1]; decide
  unfold runIssuesOf
  simp only [List.append_assoc]
  cases hH : runHttpIssue (reqsOf p) with
  | some i =>
    have hk := (runHttpIssue_spec hH).1
    simp [List.find?_cons, hk]
  | none =>
    simp only [Option.toList_none, List.nil_append]
    rw [find?_optSkip hE, find?_optSkip hG, find?_optSkip hD]
    decide

theorem run_find_expires (p : Payload) (hst : String) :
    (runIssuesOf p hst).find? (fun i => i.key == "expires_headers") =
      runExpiresIssue p.cacheScore := by
  have hH : ∀ i, runHttpIssue (reqsOf p) = some i →
      (i.key == "expires_headers") = false := by
    intro i hi; rw [(runHttpIssue_spec hi).1]; decide
  have hG : ∀ i, runGzipIssue p.compressionScore = some i →
      (i.key == "expires_headers") = false := by
    intro i hi; rw [(runGzipIssue_spec hi).1]; decide
  have hD : ∀ i, runDnsIssue (externalHostsOf p hst) = some i →
      (i.key == "expires_headers") = false := by
    intro i hi; rw [(runDnsIssue_spec hi).1]; decide
  unfold runIssuesOf
  simp only [List.append_assoc]
  rw [find?_optSkip hH]
  cases hE : runExpiresIssue p.cacheScore with
  | some i =>
    have hk := (runExpiresIssue_spec hE).1
    simp [List.find?_cons, hk]
  | none =>
    simp only [Option.toList_none, List.nil_append]
    rw [find?_optSkip hG, find?_optSkip hD]
    decide

theorem run_find_gzip (p : Payload) (hst : String) :
    (runIssuesOf p hst).find? (fun i => i.key == "gzip") = runGzipIssue p.compressionScore := by
  have hH : ∀ i, runHttpIssue (reqsOf p) = some i → (i.key == "gzip") = false := by
    intro i hi; rw [(runHttpIssue_spec hi).1]; decide
  have hE : ∀ i, runExpiresIssue p.cacheScore = some i → (i.key == "gzip") = false := by
    intro i hi; rw [(runExpiresIssue_spec hi).1]; decide
  have hD : ∀ i, runDnsIssue (externalHostsOf p hst) = some i → (i.key == "gzip") = false := by
    intro i hi; rw [(runDnsIssue_spec hi).1]; decide
  unfold runIssuesOf
  simp only [List.append_assoc]
  rw [find?_optSkip hH, find?_optSkip hE]
  cases hG : runGzipIssue p.compressionScore with
  | some i =>
    have hk := (runGzipIssue_spec hG).1
    simp [List.find?_cons, hk]
  | none =>
    simp only [Option.toList_none, List.nil_append]
    rw [find?_optSkip hD]
    decide

theorem run_find_dns (p : Payload) (hst : String) :
    (runIssuesOf p hst).find? (fun i => i.key == "dns") =
      runDnsIssue (externalHostsOf p hst) := by
  have hH : ∀ i, runHttpIssue (reqsOf p) = some i → (i.key == "dns") = false := by
    intro i hi; rw [(runHttpIssue_spec hi).1]; decide
  have hE : ∀ i, runExpiresIssue p.cacheScore = some i → (i.key == "dns") = false := by
    intro i hi; rw [(runExpiresIssue_spec hi).1]; decide
  have hG : ∀ i, runGzipIssue p.compressionScore = some i → (i.key == "dns") = false := by
    intro i hi; rw [(runGzipIssue_spec hi).1]; decide
  unfold runIssuesOf
  simp only [List.append_assoc]
  rw [find?_optSkip hH, find?_optSkip hE, find?_optSkip hG]
  cases hD : runDnsIssue (externalHostsOf p hst) with
  | some i =>
    have hk := (runDnsIssue_spec hD).1
    simp [List.find?_cons, hk]
  | none => decide

/-! ## The host loop counts distinct external hosts -/

/-- Loop invariant: `hostLoop` adds to its accumulator the number of distinct
parsed hosts that are not yet in `seen` and differ from the origin host. -/
theorem hostLoop_eq_card (originHost : String) (l : List NetworkItem) :
    ∀ (seen : List String) (n : ℕ),
      hostLoop originHost l seen n =
        n + ((l.filterMap NetworkItem.host).toFinset.filter
              (fun h => h ∉ seen ∧ h ≠ originHost)).card := by
  induction l with
  | nil => intro seen n; simp [hostLoop]
  | cons it rest ih =>
    intro seen n
    cases hh : it.host with
    | none => simp [hostLoop, hh, ih]
    | some h =>
      simp only [hostLoop, hh, List.filterMap_cons, List.toFinset_cons]
      by_cases hs : h ∈ seen
      · rw [if_pos hs, ih, Finset.filter_insert, if_neg (by simp [hs])]
      · rw [if_neg hs, ih, Finset.filter_insert]
        set S := (rest.filterMap NetworkItem.host).toFinset with hS
        by_cases ho : h = originHost
        · have hcong : S.filter (fun x => x ∉ h :: seen ∧ x ≠ originHost) =
              S.filter (fun x => x ∉ seen ∧ x ≠ originHost) := by
            apply Finset.filter_congr
            intro x _
            subst ho
            simp only [List.mem_cons]
            constructor
            · rintro ⟨hx1, hx2⟩; exact ⟨fun hx => hx1 (Or.inr hx), hx2⟩
            · rintro ⟨hx1, hx2⟩
              exact ⟨fun hx => hx.elim (fun hx => hx2 hx) hx1, hx2⟩
          rw [if_pos ho, if_neg (fun hc => hc.2 ho), hcong]
        · have hcong : S.filter (fun x => x ∉ h :: seen ∧ x ≠ originHost) =
              (S.filter (fun x => x ∉ seen ∧ x ≠ originHost)).erase h := by
            rw [← Finset.filter_ne' (S.filter (fun x => x ∉ seen ∧ x ≠ originHost)) h,
              Finset.filter_filter]
            apply Finset.filter_congr
            intro x _
            simp only [List.mem_cons]
            constructor
            · rintro ⟨hx1, hx2⟩
              exact ⟨⟨fun hx => hx1 (Or.inr hx), hx2⟩, fun hx => hx1 (Or.inl hx)⟩
            · rintro ⟨⟨hx1, hx2⟩, hx3⟩
              exact ⟨fun hx => hx.elim hx3 hx1, hx2⟩
          rw [if_neg ho, if_pos (show h ∉ seen ∧ h ≠ originHost from ⟨hs, ho⟩), hcong]
          set T := S.filter (fun x => x ∉ seen ∧ x ≠ originHost) with hT
          rw [Finset.card_insert_eq_ite]
          by_cases hmem : h ∈ T
          · rw [if_pos hmem, Finset.card_erase_of_mem hmem]
            have : 0 < T.card := Finset.card_pos.mpr ⟨h, hmem⟩
            omega
          · rw [if_neg hmem, Finset.erase_eq_of_not_mem hmem]
            omega

/-- `externalHosts` computed by the loop equals the spec's declarative count
of distinct external hosts. -/
theorem externalHostsOf_eq_spec (p : Payload) (originHost : String) :
    externalHostsOf p originHost =
      specExternalHostCount (p.networkItems.getD []) originHost := by
  unfold externalHostsOf specExternalHostCount
  rw [hostLoop_eq_card]
  rw [Nat.zero_add]
  congr 1
  apply Finset.filter_congr
  intro x _
  simp

/-! ## Grade ladders as functions of the raw value -/

theorem apiExpires_grade (s : Option ℚ) :
    (apiExpiresIssue s).grade =
      match s with
      | none => Grade.C
      | some v =>
        if v ≥ 0.9 then Grade.A
        else if v ≥ 0.7 then Grade.B
        else if v ≥ 0.4 then Grade.C
        else Grade.D := by
  cases s with
  | none => rfl
  | some v => simp only [apiExpiresIssue]; split_ifs <;> rfl

theorem apiHttp_grade (r : Option ℕ) :
    (apiHttpIssue r).grade =
      match r with
      | none => Grade.B
      | some n =>
        if n > 90 then Grade.F
        else if n > 60 then Grade.D
        else if n > 40 then Grade.C
        else Grade.B := by
  cases r with
  | none => rfl
  | some n => simp only [apiHttpIssue]; split_ifs <;> rfl

theorem apiDns_grade (n : ℕ) :
    (apiDnsIssue n).grade =
      (if n > 6 then Grade.D else if n > 4 then Grade.C else if n > 2 then Grade.B
       else Grade.A) := by
  simp only [apiDnsIssue]; split_ifs <;> rfl

theorem runExpires_grade (v : ℚ) :
    (runExpiresIssue (some v)).map Issue.grade =
      (if v ≥ 0.9 then none
       else if v ≥ 0.7 then some Grade.B
       else if v ≥ 0.4 then some Grade.C
       else some Grade.D) := by
  simp only [runExpiresIssue]
  rcases le_or_lt (0.9 : ℚ) v with h9 | h9
  · have g1 : ¬(v < 0.9 ∧ v ≥ 0.7) := fun hc => absurd hc.1 (not_lt.mpr h9)
    have g2 : ¬(v < 0.7 ∧ v ≥ 0.4) := fun hc => absurd hc.1 (not_lt.mpr (by linarith))
    have g3 : ¬(v < 0.4) := not_lt.mpr (by linarith)
    have h9' : v ≥ 0.9 := h9
    rw [if_neg g1, if_neg g2, if_neg g3, if_pos h9']
    rfl
  · rcases le_or_lt (0.7 : ℚ) v with h7 | h7
    · have g1 : v < 0.9 ∧ v ≥ 0.7 := ⟨h9, h7⟩
      have c9 : ¬(v ≥ 0.9) := not_le.mpr h9
      have h7' : v ≥ 0.7 := h7
      rw [if_pos g1, if_neg c9, if_pos h7']
      rfl
    · rcases le_or_lt (0.4 : ℚ) v with h4 | h4
      · have g1 : ¬(v < 0.9 ∧ v ≥ 0.7) := fun hc => absurd hc.2 (not_le.mpr h7)
        have g2 : v < 0.7 ∧ v ≥ 0.4 := ⟨h7, h4⟩
        have c9 : ¬(v ≥ 0.9) := not_le.mpr h9
        have c7 : ¬(v ≥ 0.7) := not_le.mpr h7
        have h4' : v ≥ 0.4 := h4
        rw [if_neg g1, if_pos g2, if_neg c9, if_neg c7, if_pos h4']
        rfl
      · have g1 : ¬(v < 0.9 ∧ v ≥ 0.7) := fun hc => absurd hc.2 (not_le.mpr h7)
        have g2 : ¬(v < 0.7 ∧ v ≥ 0.4) := fun hc => absurd hc.2 (not_le.mpr h4)
        have c9 : ¬(v ≥ 0.9) := not_le.mpr h9
        have c7 : ¬(v ≥ 0.7) := not_le.mpr h7
        have c4 : ¬(v ≥ 0.4) := not_le.mpr h4
        rw [if_neg g1, if_neg g2, if_pos h4, if_neg c9, if_neg c7, if_neg c4]
        rfl

theorem runGzip_grade (v : ℚ) :
    (runGzipIssue (some v)).map Issue.grade =
      (if v ≥ 0.9 then none
       else if v ≥ 0.7 then some Grade.B
       else if v ≥ 0.4 then some Grade.C
       else some Grade.D) := by
  simp only [runGzipIssue]
  rcases le_or_lt (0.9 : ℚ) v with h9 | h9
  · have g1 : ¬(v < 0.9 ∧ v ≥ 0.7) := fun hc => absurd hc.1 (not_lt.mpr h9)
    have g2 : ¬(v < 0.7 ∧ v ≥ 0.4) := fun hc => absurd hc.1 (not_lt.mpr (by linarith))
    have g3 : ¬(v < 0.4) := not_lt.mpr (by linarith)
    have h9' : v ≥ 0.9 := h9
    rw [if_neg g1, if_neg g2, if_neg g3, if_pos h9']
    rfl
  · rcases le_or_lt (0.7 : ℚ) v with h7 | h7
    · have g1 : v < 0.9 ∧ v ≥ 0.7 := ⟨h9, h7⟩
      have c9 : ¬(v ≥ 0.9) := not_le.mpr h9
      have h7' : v ≥ 0.7 := h7
      rw [if_pos g1, if_neg c9, if_pos h7']
      rfl
    · rcases le_or_lt (0.4 : ℚ) v with h4 | h4
      · have g1 : ¬(v < 0.9 ∧ v ≥ 0.7) := fun hc => absurd hc.2 (not_le.mpr h7)
        have g2 : v < 0.7 ∧ v ≥ 0.4 := ⟨h7, h4⟩
        have c9 : ¬(v ≥ 0.9) := not_le.mpr h9
        have c7 : ¬(v ≥ 0.7) := not_le.mpr h7
        have h4' : v ≥ 0.4 := h4
        rw [if_neg g1, if_pos g2, if_neg c9, if_neg c7, if_pos h4']
        rfl
      · have g1 : ¬(v < 0.9 ∧ v ≥ 0.7) := fun hc => absurd hc.2 (not_le.mpr h7)
        have g2 : ¬(v < 0.7 ∧ v ≥ 0.4) := fun hc => absurd hc.2 (not_le.mpr h4)
        have c9 : ¬(v ≥ 0.9) := not_le.mpr h9
        have c7 : ¬(v ≥ 0.7) := not_le.mpr h7
        have c4 : ¬(v ≥ 0.4) := not_le.mpr h4
        rw [if_neg g1, if_neg g2, if_pos h4, if_neg c9, if_neg c7, if_neg c4]
        rfl

theorem runDns_grade (n : ℕ) :
    (runDnsIssue n).map Issue.grade =
      (if n > 6 then some Grade.D
       else if n > 4 then some Grade.C
       else if n > 2 then some Grade.B
       else none) := by
  simp only [runDnsIssue]; split_ifs <;> rfl

theorem runHttp_grade (r : Option ℕ) :
    (runHttpIssue r).map Issue.grade =
      match r with
      | none => none
      | some n =>
        if n > 90 then some Grade.F
        else if n > 60 then some Grade.D
        else if n > 40 then some Grade.C
        else none := by
  cases r with
  | none => rfl
  | some n => simp only [runHttpIssue]; split_ifs <;> rfl

/-! ## Handler inversion: where a 200-with-summary can come from -/

theorem handler_200_summary {issuesOf : Payload → String → List Issue}
    {parseHost : String → Option String} {req : Request} {up : UpstreamResponse}
    {s : AuditSummary}
    (hres : handler issuesOf parseHost req up = ⟨200, .summary s⟩) :
    ∃ p originHost, up.payload = some p ∧ s = transform issuesOf p originHost := by
  unfold handler at hres
  split at hres
  · simp at hres
  · split at hres
    · simp at hres
    · split at hres
      · simp at hres
      · split at hres
        · simp at hres
        · split at hres
          · simp at hres
          · split at hres
            · simp at hres
            · next p hp =>
              split at hres
              · simp at hres
              · next oh hoh =>
                simp only [Response.mk.injEq, RespBody.summary.injEq] at hres
                exact ⟨p, oh, hp, hres.2.symm⟩

/-! ## Claims -/

/-- C4: for every POST request with a non-empty url where the upstream call
returns a non-success status `s`, the handler responds with status exactly `s`
and a body whose `detail` field is the upstream response body text; the body is
the error object, so no summary fields are computed or returned. -/
theorem C4_upstream_error_forwarded (issuesOf : Payload → String → List Issue)
    (parseHost : String → Option String) (req : Request) (up : UpstreamResponse)
    (u : String) (hm : req.method = "POST") (hu : bodyUrl req = some u) (hne : u ≠ "")
    (hst : fetchOk up.status = false) :
    handler issuesOf parseHost req up = ⟨up.status, .err "PSI error" (some up.bodyText)⟩ := by
  unfold handler
  rw [hm, hu]
  simp [hne, hst]

theorem C4_upstream_error_forwarded_witness :
    handler apiIssuesOf (fun _ => none) ⟨"POST", some ⟨some "https://example.com/"⟩⟩
        ⟨403, "denied", none⟩ =
      ⟨403, .err "PSI error" (some "denied")⟩ :=
  C4_upstream_error_forwarded _ _ _ _ "https://example.com/" rfl rfl (by decide) (by decide)

/-- C5: the summary score is the performance category score times 100, rounded
to the nearest integer (`Math.round`); it is 0 when the score is absent; and a
performance score of 0.85 yields 85. -/
theorem C5_score_rounding :
    (∀ p : Payload, scoreOf p = round ((p.perfScore.getD 0) * 100))
    ∧ (∀ p : Payload, p.perfScore = none → scoreOf p = 0)
    ∧ scoreOf { perfScore := some 0.85 } = 85 := by
  refine ⟨fun p => ?_, fun p hp => ?_, ?_⟩
  · unfold scoreOf jsRound
    rw [round_eq]
  · unfold scoreOf jsRound
    rw [hp]
    simp only [Option.getD_none]
    rw [Int.floor_eq_iff]
    norm_num
  · unfold scoreOf jsRound
    simp only [Option.getD_some]
    rw [Int.floor_eq_iff]
    norm_num

theorem C5_score_rounding_witness : scoreOf { } = 0 :=
  C5_score_rounding.2.1 { } rfl

/-- C6 counterexample: a payload with a present `numericValue` of 0 for
largest-contentful-paint yields `lcp = null`, not `0 / 1000`, because the
source uses a JavaScript truthiness ternary. -/
theorem C6_lcp_zero_counterexample :
    ({ lcpValue := some 0 } : Payload).lcpValue = some 0 ∧
      lcpOf { lcpValue := some 0 } = none ∧
      lcpOf { lcpValue := some 0 } ≠ some ((0 : ℚ) / 1000) := by
  have hnone : lcpOf { lcpValue := some 0 } = none := by
    simp [lcpOf, truthyNum]
  exact ⟨rfl, hnone, by simp [hnone]⟩

/-- C6 (amended): `lcp` equals the largest-contentful-paint `numericValue`
divided by 1000 when that value is present and nonzero, and is null when the
value is absent or zero; `numericValue = 2500` yields `lcp = 2.5`. -/
theorem C6_lcp_conversion :
    (∀ (p : Payload) (v : ℚ), p.lcpValue = some v → v ≠ 0 → lcpOf p = some (v / 1000))
    ∧ (∀ p : Payload, p.lcpValue = none → lcpOf p = none)
    ∧ (∀ p : Payload, p.lcpValue = some 0 → lcpOf p = none)
    ∧ lcpOf { lcpValue := some 2500 } = some 2.5 := by
  refine ⟨fun p v hp hv => ?_, fun p hp => ?_, fun p hp => ?_, ?_⟩
  · unfold lcpOf
    rw [hp]
    have ht : truthyNum (some v) = true := by simp [truthyNum, hv]
    simp [ht]
  · unfold lcpOf
    rw [hp]
    rfl
  · unfold lcpOf
    rw [hp]
    simp [truthyNum]
  · unfold lcpOf
    have ht : truthyNum (some (2500 : ℚ)) = true := by
      simp [truthyNum]
    simp only [ht]
    norm_num

theorem C6_lcp_conversion_witness :
    lcpOf { lcpValue := some 2000 } = some ((2000 : ℚ) / 1000) :=
  C6_lcp_conversion.1 { lcpValue := some 2000 } 2000 rfl (by norm_num)

/-- C7: a request whose method is neither POST nor OPTIONS gets a 405 with the
fixed error payload, and a POST whose body lacks a non-empty url gets a 400. -/
theorem C7_method_body_validation :
    (∀ (issuesOf : Payload → String → List Issue) (parseHost : String → Option String)
        (req : Request) (up : UpstreamResponse),
      req.method ≠ "OPTIONS" → req.method ≠ "POST" →
      handler issuesOf parseHost req up = ⟨405, .err "Use POST \x7b url \x7d" none⟩)
    ∧ (∀ (issuesOf : Payload → String → List Issue) (parseHost : String → Option String)
        (req : Request) (up : UpstreamResponse),
      req.method = "POST" → (bodyUrl req = none ∨ bodyUrl req = some "") →
      handler issuesOf parseHost req up = ⟨400, .err "Missing url" none⟩) := by
  constructor
  · intro issuesOf parseHost req up h1 h2
    unfold handler
    rw [if_neg h1, if_pos h2]
  · intro issuesOf parseHost req up hm hurl
    unfold handler
    rw [hm]
    rcases hurl with hu | hu <;> rw [hu] <;> simp

theorem C7_method_body_validation_witness :
    handler apiIssuesOf (fun _ => none) ⟨"GET", none⟩ ⟨200, "", none⟩ =
        ⟨405, .err "Use POST \x7b url \x7d" none⟩ ∧
      handler apiIssuesOf (fun _ => none) ⟨"POST", none⟩ ⟨200, "", none⟩ =
        ⟨400, .err "Missing url" none⟩ :=
  ⟨C7_method_body_validation.1 _ _ _ _ (by decide) (by decide),
   C7_method_body_validation.2 _ _ _ _ rfl (Or.inl rfl)⟩

/-- C8: every OPTIONS request short-circuits with an empty 200 response,
regardless of origin, body, url or upstream behaviour. -/
theorem C8_options_preflight (issuesOf : Payload → String → List Issue)
    (parseHost : String → Option String) (req : Request) (up : UpstreamResponse)
    (hm : req.method = "OPTIONS") :
    handler issuesOf parseHost req up = ⟨200, .empty⟩ := by
  unfold handler
  rw [hm, if_pos rfl]

theorem C8_options_preflight_witness :
    handler runIssuesOf (fun _ => none) ⟨"OPTIONS", some ⟨some "x"⟩⟩ ⟨500, "boom", none⟩ =
      ⟨200, .empty⟩ :=
  C8_options_preflight _ _ _ _ rfl

/-- C1 counterexample: in the `src/run.js` variant a cache score of 0.95 emits
no `expires_headers` issue at all, so that payload does not yield a grade-A
`expires_headers` issue as the claim states. -/
theorem C1_expires_missing_in_run_counterexample :
    ({ cacheScore := some 0.95 } : Payload).cacheScore = some 0.95 ∧
      issueGrade (runIssuesOf { cacheScore := some 0.95 } "example.com") "expires_headers" =
        none := by
  refine ⟨rfl, ?_⟩
  unfold issueGrade
  rw [run_find_expires]
  show (runExpiresIssue (some 0.95)).map Issue.grade = none
  rw [runExpires_grade, if_pos (show (0.95 : ℚ) ≥ 0.9 by norm_num)]

/-- C1 (amended): in the `src/api/run.js` variant every payload's
`expires_headers` issue is graded by the ladder ≥0.9→A, ≥0.7→B, ≥0.4→C,
else D, missing score→C, and a 0.95 cache score yields grade A; in the
`src/run.js` variant the same thresholds give B/C/D and missing→C, but a
score ≥ 0.9 emits no `expires_headers` issue at all. -/
theorem C1_expires_grading :
    (∀ (p : Payload) (hst : String),
      issueGrade (apiIssuesOf p hst) "expires_headers" =
        some (match p.cacheScore with
          | none => Grade.C
          | some v =>
            if v ≥ 0.9 then Grade.A
            else if v ≥ 0.7 then Grade.B
            else if v ≥ 0.4 then Grade.C
            else Grade.D))
    ∧ (∀ (p : Payload) (hst : String),
      issueGrade (runIssuesOf p hst) "expires_headers" =
        (match p.cacheScore with
         | none => some Grade.C
         | some v =>
           if v ≥ 0.9 then none
           else if v ≥ 0.7 then some Grade.B
           else if v ≥ 0.4 then some Grade.C
           else some Grade.D))
    ∧ issueGrade (apiIssuesOf { cacheScore := some 0.95 } "example.com") "expires_headers" =
        some Grade.A := by
  refine ⟨fun p hst => ?_, fun p hst => ?_, ?_⟩
  · unfold issueGrade
    rw [api_find_expires]
    simp only [Option.map_some', apiExpires_grade]
  · unfold issueGrade
    rw [run_find_expires]
    cases hc : p.cacheScore with
    | none => rfl
    | some v => rw [runExpires_grade]
  · unfold issueGrade
    rw [api_find_expires]
    show (some (apiExpiresIssue (some 0.95))).map Issue.grade = some Grade.A
    simp only [Option.map_some', apiExpires_grade]
    rw [if_pos (show (0.95 : ℚ) ≥ 0.9 by norm_num)]

/-- C2 counterexample: with the network-requests audit absent, the
`src/run.js` variant emits no dns issue at all, so the dns issue does not
default to grade A as the claim states. -/
theorem C2_dns_missing_in_run_counterexample :
    ({ } : Payload).networkItems = none ∧
      issueGrade (runIssuesOf ({ } : Payload) "example.com") "dns" = none ∧
      issueGrade (runIssuesOf ({ } : Payload) "example.com") "dns" ≠ some Grade.A := by
  refine ⟨rfl, ?_, ?_⟩ <;> decide

/-- C2 (amended): the dns rule is graded on the number of distinct hosts among
the network-requests items' urls that differ from the target url's host, each
host counted once and unparseable item urls skipped; in the `src/api/run.js`
variant the grade is D when that count > 6, C when > 4, B when > 2, else A,
and an absent network-requests audit gives requests = null and a grade-A dns
issue; in the `src/run.js` variant the same D/C/B tiers apply but a count ≤ 2
(in particular the absent-audit case) emits no dns issue. -/
theorem C2_dns_grading :
    (∀ (p : Payload) (hst : String),
      externalHostsOf p hst = specExternalHostCount (p.networkItems.getD []) hst)
    ∧ (∀ (p : Payload) (hst : String),
      issueGrade (apiIssuesOf p hst) "dns" =
        some (if externalHostsOf p hst > 6 then Grade.D
          else if externalHostsOf p hst > 4 then Grade.C
          else if externalHostsOf p hst > 2 then Grade.B
          else Grade.A))
    ∧ (∀ (p : Payload) (hst : String),
      issueGrade (runIssuesOf p hst) "dns" =
        (if externalHostsOf p hst > 6 then some Grade.D
         else if externalHostsOf p hst > 4 then some Grade.C
         else if externalHostsOf p hst > 2 then some Grade.B
         else none))
    ∧ (∀ (p : Payload) (hst : String), p.networkItems = none →
        reqsOf p = none ∧
        issueGrade (apiIssuesOf p hst) "dns" = some Grade.A ∧
        issueGrade (runIssuesOf p hst) "dns" = none) := by
  have hapi : ∀ (p : Payload) (hst : String),
      issueGrade (apiIssuesOf p hst) "dns" =
        some (if externalHostsOf p hst > 6 then Grade.D
          else if externalHostsOf p hst > 4 then Grade.C
          else if externalHostsOf p hst > 2 then Grade.B
          else Grade.A) := by
    intro p hst
    unfold issueGrade
    rw [api_find_dns]
    simp only [Option.map_some', apiDns_grade]
  have hrun : ∀ (p : Payload) (hst : String),
      issueGrade (runIssuesOf p hst) "dns" =
        (if externalHostsOf p hst > 6 then some Grade.D
         else if externalHostsOf p hst > 4 then some Grade.C
         else if externalHostsOf p hst > 2 then some Grade.B
         else none) := by
    intro p hst
    unfold issueGrade
    rw [run_find_dns, runDns_grade]
  refine ⟨externalHostsOf_eq_spec, hapi, hrun, ?_⟩
  intro p hst hn
  have h0 : externalHostsOf p hst = 0 := by
    unfold externalHostsOf
    rw [hn]
    rfl
  refine ⟨?_, ?_, ?_⟩
  · unfold reqsOf
    rw [hn]
    rfl
  · rw [hapi p hst, h0]
    decide
  · rw [hrun p hst, h0]
    decide

theorem C2_dns_grading_witness :
    reqsOf ({ } : Payload) = none ∧
      issueGrade (apiIssuesOf ({ } : Payload) "example.com") "dns" = some Grade.A ∧
      issueGrade (runIssuesOf ({ } : Payload) "example.com") "dns" = none :=
  C2_dns_grading.2.2.2 { } "example.com" rfl

/-- C3 counterexample: on the 45-item same-host payload the `src/run.js`
variant emits no dns issue, contradicting the claimed grade-A dns issue. -/
theorem C3_run_dns_counterexample :
    issueGrade (runIssuesOf sameHost45 "www.site.com") "dns" = none ∧
      issueGrade (runIssuesOf sameHost45 "www.site.com") "dns" ≠ some Grade.A := by
  refine ⟨?_, ?_⟩ <;> decide

/-- C3 (amended): with a network-requests item count `n`, both variants grade
http_requests F when n > 90, D when n > 60, C when n > 40 (the api variant
emits B otherwise, the run variant nothing); the 45-item same-host payload
yields requests = 45, a grade-C http_requests issue in both variants and a
grade-A dns issue in the `src/api/run.js` variant, while the `src/run.js`
variant emits no dns issue there. -/
theorem C3_http_requests_grading :
    (∀ (p : Payload) (hst : String) (n : ℕ), reqsOf p = some n →
      issueGrade (apiIssuesOf p hst) "http_requests" =
        some (if n > 90 then Grade.F else if n > 60 then Grade.D
          else if n > 40 then Grade.C else Grade.B) ∧
      issueGrade (runIssuesOf p hst) "http_requests" =
        (if n > 90 then some Grade.F else if n > 60 then some Grade.D
         else if n > 40 then some Grade.C else none))
    ∧ reqsOf sameHost45 = some 45
    ∧ issueGrade (apiIssuesOf sameHost45 "www.site.com") "http_requests" = some Grade.C
    ∧ issueGrade (runIssuesOf sameHost45 "www.site.com") "http_requests" = some Grade.C
    ∧ issueGrade (apiIssuesOf sameHost45 "www.site.com") "dns" = some Grade.A := by
  refine ⟨fun p hst n hr => ⟨?_, ?_⟩, ?_, ?_, ?_, ?_⟩
  · unfold issueGrade
    rw [api_find_http]
    simp only [Option.map_some', apiHttp_grade, hr]
  · unfold issueGrade
    rw [run_find_http, runHttp_grade, hr]
  · decide
  · decide
  · decide
  · decide

theorem C3_http_requests_grading_witness :
    issueGrade (apiIssuesOf sameHost45 "www.site.com") "http_requests" =
        some (if 45 > 90 then Grade.F else if 45 > 60 then Grade.D
          else if 45 > 40 then Grade.C else Grade.B) ∧
      issueGrade (runIssuesOf sameHost45 "www.site.com") "http_requests" =
        (if 45 > 90 then some Grade.F else if 45 > 60 then some Grade.D
         else if 45 > 40 then some Grade.C else none) :=
  C3_http_requests_grading.1 sameHost45 "www.site.com" 45 (by decide)

/-- C9: the two source files are inconsistent: the `src/api/run.js` variant
emits exactly one issue per rule, in a fixed six-key order, while the
`src/run.js` variant attaches a tip to every issue it emits and omits the
issue in each rule's passing range; on the all-absent payload the two produce
different issue lists. -/
theorem C9_variant_divergence :
    (∀ (p : Payload) (hst : String),
      (apiIssuesOf p hst).map Issue.key =
        ["http_requests", "expires_headers", "gzip", "dns", "cookies", "empty_src"])
    ∧ (∀ (p : Payload) (hst : String) (i : Issue), i ∈ runIssuesOf p hst → i.tip ≠ none)
    ∧ (∀ (p : Payload) (hst : String),
        (reqsOf p = none ∨ (∃ n, reqsOf p = some n ∧ n ≤ 40)) →
        issueGrade (runIssuesOf p hst) "http_requests" = none)
    ∧ (∀ (p : Payload) (hst : String) (v : ℚ),
        p.cacheScore = some v → v ≥ 0.9 →
        issueGrade (runIssuesOf p hst) "expires_headers" = none)
    ∧ (∀ (p : Payload) (hst : String) (v : ℚ),
        p.compressionScore = some v → v ≥ 0.9 →
        issueGrade (runIssuesOf p hst) "gzip" = none)
    ∧ (∀ (p : Payload) (hst : String),
        externalHostsOf p hst ≤ 2 → issueGrade (runIssuesOf p hst) "dns" = none)
    ∧ apiIssuesOf { } "example.com" ≠ runIssuesOf { } "example.com" := by
  refine ⟨fun p hst => ?_, fun p hst i hi => ?_, fun p hst h => ?_, fun p hst v hc h9 => ?_,
    fun p hst v hc h9 => ?_, fun p hst h2 => ?_, ?_⟩
  · simp [apiIssuesOf, apiHttpIssue_key, apiExpiresIssue_key, apiGzipIssue_key, apiDnsIssue_key]
  · unfold runIssuesOf at hi
    simp only [List.mem_append, Option.mem_toList, Option.mem_def, List.mem_cons,
      List.mem_singleton] at hi
    rcases hi with (((hi | hi) | hi) | hi) | hi | hi | hi
    · exact (runHttpIssue_spec hi).2
    · exact (runExpiresIssue_spec hi).2
    · exact (runGzipIssue_spec hi).2
    · exact (runDnsIssue_spec hi).2
    · rw [hi]; simp
    · rw [hi]; simp
    · simp at hi
  · unfold issueGrade
    rw [run_find_http]
    rcases h with h | ⟨n, hn, hle⟩
    · rw [h]; rfl
    · rw [hn, runHttp_grade]
      show (if n > 90 then some Grade.F else if n > 60 then some Grade.D
        else if n > 40 then some Grade.C else none) = none
      have g1 : ¬(n > 90) := by omega
      have g2 : ¬(n > 60) := by omega
      have g3 : ¬(n > 40) := by omega
      rw [if_neg g1, if_neg g2, if_neg g3]
  · unfold issueGrade
    rw [run_find_expires, hc]
    show (runExpiresIssue (some v)).map Issue.grade = none
    rw [runExpires_grade, if_pos h9]
  · unfold issueGrade
    rw [run_find_gzip, hc]
    show (runGzipIssue (some v)).map Issue.grade = none
    rw [runGzip_grade, if_pos h9]
  · unfold issueGrade
    rw [run_find_dns, runDns_grade]
    have g1 : ¬(externalHostsOf p hst > 6) := by omega
    have g2 : ¬(externalHostsOf p hst > 4) := by omega
    have g3 : ¬(externalHostsOf p hst > 2) := by omega
    rw [if_neg g1, if_neg g2, if_neg g3]
  · decide

theorem C9_variant_divergence_witness :
    issueGrade (runIssuesOf ({ } : Payload) "example.com") "http_requests" = none :=
  C9_variant_divergence.2.2.1 { } "example.com" (Or.inl rfl)

/-- C10: in the `src/api/run.js` variant, the issues list of every summary
(including the one in every 200-with-summary response) is exactly the six keys
http_requests, expires_headers, gzip, dns, cookies, empty_src in order;
cookies is always grade B, empty_src always grade A; and an absent
network-requests audit (requests = null) still yields an http_requests issue
of grade B. -/
theorem C10_api_six_issues :
    (∀ (p : Payload) (hst : String),
      ((transform apiIssuesOf p hst).issues).map Issue.key =
        ["http_requests", "expires_headers", "gzip", "dns", "cookies", "empty_src"])
    ∧ (∀ (p : Payload) (hst : String),
        issueGrade (apiIssuesOf p hst) "cookies" = some Grade.B ∧
        issueGrade (apiIssuesOf p hst) "empty_src" = some Grade.A)
    ∧ (∀ (p : Payload) (hst : String), p.networkItems = none →
        reqsOf p = none ∧
        issueGrade (apiIssuesOf p hst) "http_requests" = some Grade.B)
    ∧ (∀ (parseHost : String → Option String) (req : Request) (up : UpstreamResponse)
        (s : AuditSummary),
        handler apiIssuesOf parseHost req up = ⟨200, .summary s⟩ →
        s.issues.map Issue.key =
          ["http_requests", "expires_headers", "gzip", "dns", "cookies", "empty_src"]) := by
  have hkeys : ∀ (p : Payload) (hst : String),
      (apiIssuesOf p hst).map Issue.key =
        ["http_requests", "expires_headers", "gzip", "dns", "cookies", "empty_src"] := by
    intro p hst
    simp [apiIssuesOf, apiHttpIssue_key, apiExpiresIssue_key, apiGzipIssue_key, apiDnsIssue_key]
  refine ⟨fun p hst => hkeys p hst, fun p hst => ⟨?_, ?_⟩, fun p hst hn => ⟨?_, ?_⟩, ?_⟩
  · unfold issueGrade
    rw [api_find_cookies]
    rfl
  · unfold issueGrade
    rw [api_find_empty_src]
    rfl
  · unfold reqsOf
    rw [hn]
    rfl
  · have hr : reqsOf p = none := by unfold reqsOf; rw [hn]; rfl
    unfold issueGrade
    rw [api_find_http, hr]
    rfl
  · intro parseHost req up s hres
    obtain ⟨p, oh, _, hs⟩ := handler_200_summary hres
    rw [hs]
    exact hkeys p oh

theorem C10_api_six_issues_witness :
    reqsOf ({ } : Payload) = none ∧
      issueGrade (apiIssuesOf ({ } : Payload) "example.com") "http_requests" = some Grade.B :=
  C10_api_six_issues.2.2.1 { } "example.com" rfl

end PinePerf
